import Mathlib

deriving instance DecidableEq for Except

/-!
Shallow embedding of `src/app.py` (a Streamlit master-detail AgGrid app):
the data-shaping pipeline `load_data` (fetch, decode, pandas normalize,
orphan injection, `st.cache_data` memoization) and the pure configuration
builder `build_grid_options`. Machine-level details that the claims touch
are modelled explicitly: the two HTTP requests per load (`requests.get`
plus `pd.read_json`), the absence of a status check on the first response,
pandas' behaviour on a missing `callRecords` key, and Python list `+`
semantics in `build_grid_options`.
-/

namespace App

/-- Call direction, as found in the JSON `direction` field. -/
inductive Direction where
  | inbound
  | outbound
deriving DecidableEq, Repr

/-- One nested call record: the objects of a master's `callRecords` array. -/
structure DetailRecord where
  callId : String
  direction : Direction
  number : String
  duration : Int
  switchCode : String
deriving DecidableEq, Repr

/-- A JSON scalar as it appears in the `account` field: `load_data`'s orphan
uses the string `"N/A"` while `build_grid_options`'s orphan row uses the
integer `0`, so both representations must be expressible. -/
inductive PyVal where
  | str (s : String)
  | int (n : Int)
deriving DecidableEq, Repr

/-- A top-level object of the fetched JSON array (also the shape of the raw
`data_json` rows handed to `build_grid_options`). `callRecords = none`
models the key being absent from the object. -/
structure SrcObj where
  name : String
  account : PyVal
  calls : Int
  minutes : Int
  callRecords : Option (List DetailRecord)
deriving DecidableEq, Repr

/-- A row of the normalized DataFrame produced by `load_data`: the
`callRecords` column has been replaced by `pd.json_normalize` output,
so every row carries an actual list of detail records. -/
structure MasterRecord where
  name : String
  account : PyVal
  calls : Int
  minutes : Int
  callRecords : List DetailRecord
deriving DecidableEq, Repr

/-! ### Orphan records

`load_data` (src/app.py lines 23-33) appends one orphan master to the
DataFrame; `build_grid_options` (lines 93-102) appends a separately
spelled orphan row to `rowData`. The two detail records are identical in
both places; the identity fields are not. -/

/-- First fixed orphan detail record (`orphan1`, outbound). -/
def orphanDetail1 : DetailRecord :=
  { callId := "orphan1", direction := .outbound, number := "1234567890"
    duration := 0, switchCode := "N/A" }

/-- Second fixed orphan detail record (`orphan2`, inbound). -/
def orphanDetail2 : DetailRecord :=
  { callId := "orphan2", direction := .inbound, number := "0987654321"
    duration := 0, switchCode := "N/A" }

/-- The orphan master appended by `load_data` (src/app.py lines 23-33):
`name="Orphaned Record"`, `account="N/A"`, `calls=0`, `minutes=0`. -/
def orphanMaster : MasterRecord :=
  { name := "Orphaned Record", account := .str "N/A", calls := 0, minutes := 0
    callRecords := [orphanDetail1, orphanDetail2] }

/-- The orphan row appended by `build_grid_options` to `rowData`
(src/app.py lines 93-102): `name="Orphans"`, `account=0`. -/
def gridOrphanRow : SrcObj :=
  { name := "Orphans", account := .int 0, calls := 0, minutes := 0
    callRecords := some [orphanDetail1, orphanDetail2] }

/-- `pd.concat([df, pd.DataFrame(orphaned_records)], ignore_index=True)`:
appends the single orphan master row to the dataset. -/
def injectOrphans (ds : List MasterRecord) : List MasterRecord :=
  ds ++ [orphanMaster]

/-! ### Value formatters

The two `valueFormatter` snippets in the grid options are the JS
expressions `x.toLocaleString() + 'm'` and `x.toLocaleString() + 's'`.
`Number.prototype.toLocaleString()` for an integer under the default
en-US locale inserts a comma every three digits from the right. -/

/-- Walk the reversed digit list, inserting a comma before every digit
whose position (from the right, 0-based) is a positive multiple of 3. -/
def groupDigitsRev : List Char → Nat → List Char
  | [], _ => []
  | c :: cs, k =>
    if 0 < k ∧ k % 3 = 0 then ',' :: c :: groupDigitsRev cs (k + 1)
    else c :: groupDigitsRev cs (k + 1)

/-- `Number.prototype.toLocaleString()` on an integer (default en-US
locale): decimal digits with thousands separators. -/
def toLocaleString (n : Int) : String :=
  let group := fun (m : Nat) =>
    String.mk ((groupDigitsRev (toString m).toList.reverse 0).reverse)
  if n < 0 then "-" ++ group n.natAbs else group n.toNat

/-- The two formatter snippets appearing in the column definitions. -/
inductive Formatter where
  /-- `x.toLocaleString() + 'm'` (master grid, `minutes` column). -/
  | minutes
  /-- `x.toLocaleString() + 's'` (detail grid, `duration` column). -/
  | duration
deriving DecidableEq, Repr

/-- Semantics of the formatter snippets. -/
def applyFormatter : Formatter → Int → String
  | .minutes, x => toLocaleString x ++ "m"
  | .duration, x => toLocaleString x ++ "s"

/-! ### Grid configuration (`build_grid_options`) -/

/-- One entry of a `columnDefs` list. Absent dict keys are modelled by
`none` / `false` defaults. -/
structure ColDef where
  field : String
  cellRenderer : Option String := none
  checkboxSelection : Bool := false
  valueFormatter : Option Formatter := none
  minWidth : Option Nat := none
deriving DecidableEq, Repr

/-- A `defaultColDef` dict. -/
structure DefaultColDef where
  sortable : Bool := false
  flex : Nat := 1
deriving DecidableEq, Repr

/-- The nested `detailGridOptions` dict. -/
structure DetailGridOptions where
  rowSelection : String
  suppressRowClickSelection : Bool
  enableRangeSelection : Bool
  pagination : Bool
  paginationAutoPageSize : Bool
  columnDefs : List ColDef
  defaultColDef : DefaultColDef
deriving DecidableEq, Repr

/-- The `getDetailRowData` JsCode callback. The source holds exactly one
such snippet: `function(params)` calling
`params.successCallback(params.data.callRecords)`. -/
inductive JsCallback where
  | successCallbackCallRecords
deriving DecidableEq, Repr

/-- Semantics of the `getDetailRowData` callback: hand the renderer the
row's own `callRecords` value, verbatim. -/
def runDetailCallback : JsCallback → SrcObj → Option (List DetailRecord)
  | .successCallbackCallRecords, row => row.callRecords

/-- The `detailCellRendererParams` dict. -/
structure DetailCellRendererParams where
  detailGridOptions : DetailGridOptions
  getDetailRowData : JsCallback
deriving DecidableEq, Repr

/-- The full `gridOptions` dict returned by `build_grid_options`. -/
structure GridConfig where
  masterDetail : Bool
  rowSelection : String
  columnDefs : List ColDef
  defaultColDef : DefaultColDef
  detailCellRendererParams : DetailCellRendererParams
  rowData : List SrcObj
deriving DecidableEq, Repr

/-- Master grid `columnDefs` (src/app.py lines 57-66). -/
def masterColumnDefs : List ColDef :=
  [ { field := "name", cellRenderer := some "agGroupCellRenderer"
      checkboxSelection := true }
  , { field := "account" }
  , { field := "calls" }
  , { field := "minutes", valueFormatter := some .minutes } ]

/-- Detail grid `columnDefs` (src/app.py lines 78-84). -/
def detailColumnDefs : List ColDef :=
  [ { field := "callId", checkboxSelection := true }
  , { field := "direction" }
  , { field := "number", minWidth := some 150 }
  , { field := "duration", valueFormatter := some .duration }
  , { field := "switchCode", minWidth := some 150 } ]

/-- Python list `a + b`: evaluates to a freshly allocated list holding the
elements of `a` then `b`; neither operand is modified. The record keeps
the post-call values of both operands so that callers of the embedding
thread them explicitly. -/
structure PyConcatResult where
  result : List SrcObj
  leftAfter : List SrcObj
  rightAfter : List SrcObj
deriving DecidableEq, Repr

/-- Semantics of Python list `+` on row lists. -/
def pyConcat (a b : List SrcObj) : PyConcatResult :=
  { result := a ++ b, leftAfter := a, rightAfter := b }

/-- `build_grid_options(data_json)` (src/app.py lines 37-104), together
with the value the caller's `data_json` list holds after the call
(`rowData` is built with Python `+`, which does not mutate its operands). -/
def buildGridOptionsCall (dataJson : List SrcObj) : GridConfig × List SrcObj :=
  let pc := pyConcat dataJson [gridOrphanRow]
  ( { masterDetail := true
      rowSelection := "single"
      columnDefs := masterColumnDefs
      defaultColDef := { flex := 1 }
      detailCellRendererParams :=
        { detailGridOptions :=
            { rowSelection := "multiple"
              suppressRowClickSelection := true
              enableRangeSelection := true
              pagination := true
              paginationAutoPageSize := true
              columnDefs := detailColumnDefs
              defaultColDef := { sortable := true, flex := 1 } }
          getDetailRowData := .successCallbackCallRecords }
      rowData := pc.result }
  , pc.leftAfter )

/-- The `gridOptions` value alone. -/
def buildGridOptions (dataJson : List SrcObj) : GridConfig :=
  (buildGridOptionsCall dataJson).fst

/-- `build_grid_options` invoked repeatedly, threading the caller's
`data_json` list value through the calls: returns the configs produced
and the final value of the caller's list. -/
def buildN : Nat → List SrcObj → List GridConfig × List SrcObj
  | 0, d => ([], d)
  | n + 1, d =>
    let p := buildGridOptionsCall d
    let q := buildN n p.snd
    (p.fst :: q.fst, q.snd)

/-! ### Loading pipeline (`load_data`, src/app.py lines 13-35)

The body performs, in order: `requests.get(url)` (raises only on transport
failure, never on HTTP status), `response.json()` (raises on a body that is
not valid JSON), `pd.read_json(url)` (a second HTTP request via urllib,
which raises `HTTPError` on a non-2xx status and a parse error on a
malformed body), the `callRecords` normalization, orphan injection, and
`return df, data`. -/

/-- Errors a load can raise. -/
inductive LoadError where
  /-- Transport-level failure: the request produced no response at all. -/
  | fetchError
  /-- `urllib` `HTTPError` raised inside `pd.read_json` on a non-2xx status. -/
  | httpError (status : Nat)
  /-- The response body is not valid JSON (`response.json()` /
  `pd.read_json` parse failure). -/
  | decodeError
  /-- `df[key]` on a DataFrame that has no such column. -/
  | keyError (key : String)
  /-- `pd.json_normalize` applied to a scalar cell (the `NaN` that
  `pd.read_json` puts where an object lacked the key). -/
  | notImplementedError
deriving DecidableEq, Repr

/-- An HTTP response: status code and body. `body = none` models a body
that is not valid JSON. -/
structure Response where
  status : Nat
  body : Option (List SrcObj)
deriving DecidableEq, Repr

/-- The DataFrame row a source object becomes once its `callRecords` cell
has been normalized (an absent key contributes no records; `normalize`
only ever succeeds when the key was present). -/
def masterOf (o : SrcObj) : MasterRecord :=
  { name := o.name, account := o.account, calls := o.calls
    minutes := o.minutes, callRecords := o.callRecords.getD [] }

/-- `df["callRecords"].apply(lambda x: pd.json_normalize(x))`: rows are
processed in order; the first `NaN` cell (an object that lacked the key,
while the column itself exists) raises pandas' `NotImplementedError`. -/
def normalizeRows : List SrcObj → Except LoadError (List MasterRecord)
  | [] => .ok []
  | o :: rest =>
    match o.callRecords with
    | none => .error .notImplementedError
    | some crs =>
      (normalizeRows rest).map
        (fun ms =>
          { name := o.name, account := o.account, calls := o.calls
            minutes := o.minutes, callRecords := crs } :: ms)

/-- The normalization step of `load_data` (src/app.py lines 18-20):
`pd.read_json` materializes a `callRecords` column only when at least one
object carries the key (so with no such object — the empty array
included — `df["callRecords"]` raises `KeyError("callRecords")`);
otherwise each cell is normalized in row order. -/
def normalize (objs : List SrcObj) : Except LoadError (List MasterRecord) :=
  if objs.all (fun o => o.callRecords.isNone) then .error (.keyError "callRecords")
  else normalizeRows objs

/-- What `load_data` returns: the normalized DataFrame (with orphan row)
and the raw decoded JSON, which is returned as-is, without the orphan. -/
abbrev LoadResult := List MasterRecord × List SrcObj

/-- One execution of the `load_data` body. `r1` is the response to
`requests.get(url)`, `r2` the response to the separate request made by
`pd.read_json(url)`; `none` is a transport failure. Returns the outcome
together with the number of HTTP requests the execution performed. -/
def loadDataRun (r1 r2 : Option Response) : Except LoadError LoadResult × Nat :=
  match r1 with
  | none => (.error .fetchError, 1)
  | some resp =>
    match resp.body with
    | none => (.error .decodeError, 1)
    | some data =>
      match r2 with
      | none => (.error .fetchError, 2)
      | some resp2 =>
        if 200 ≤ resp2.status ∧ resp2.status < 300 then
          match resp2.body with
          | none => (.error .decodeError, 2)
          | some tree2 =>
            match normalize tree2 with
            | .error e => (.error e, 2)
            | .ok ms => (.ok (injectOrphans ms, data), 2)
        else (.error (.httpError resp2.status), 2)

/-! ### Cache (`@st.cache_data`)

`st.cache_data` memoizes `load_data` per argument tuple for the lifetime
of the process; a raised exception propagates and stores nothing. -/

/-- Look up a cached result by URL. -/
def findEntry (url : String) : List (String × LoadResult) → Option LoadResult
  | [] => none
  | (u, v) :: rest => if u = url then some v else findEntry url rest

/-- Cache state: stored entries plus a count of how many times the
`load_data` body has actually run. -/
structure CacheSt where
  entries : List (String × LoadResult)
  runs : Nat
deriving DecidableEq, Repr

/-- The cache at process start. -/
def initCache : CacheSt := { entries := [], runs := 0 }

/-- One call of the cached `load_data(url)`: a hit returns the stored
value untouched; a miss runs the body, storing the result only on
success (an exception propagates and nothing is cached). -/
def getOrLoad (url : String) (r1 r2 : Option Response) (s : CacheSt) :
    Except LoadError LoadResult × CacheSt :=
  match findEntry url s.entries with
  | some v => (.ok v, s)
  | none =>
    match (loadDataRun r1 r2).fst with
    | .ok v => (.ok v, { entries := s.entries ++ [(url, v)], runs := s.runs + 1 })
    | .error e => (.error e, { entries := s.entries, runs := s.runs + 1 })

/-- `n` sequential calls of the cached `load_data` with the same URL
against a stable server: the list of results and the final cache state. -/
def getOrLoadN (url : String) (r1 r2 : Option Response) :
    Nat → CacheSt → List (Except LoadError LoadResult) × CacheSt
  | 0, s => ([], s)
  | n + 1, s =>
    let p := getOrLoad url r1 r2 s
    let q := getOrLoadN url r1 r2 n p.snd
    (p.fst :: q.fst, q.snd)

/-! ### Concrete sample data for witnesses -/

/-- A sample call record. -/
def sampleDetail : DetailRecord :=
  { callId := "c1", direction := .inbound, number := "5551234"
    duration := 10, switchCode := "SW1" }

/-- A sample well-formed top-level object. -/
def sampleObj : SrcObj :=
  { name := "Alice", account := .str "acct-1", calls := 3, minutes := 12
    callRecords := some [sampleDetail] }

/-- A top-level object missing the `callRecords` key. -/
def objNoCR : SrcObj :=
  { name := "Bob", account := .str "acct-2", calls := 1, minutes := 2
    callRecords := none }

/-- A 200 response whose body is the one-object array `[sampleObj]`. -/
def goodResponse : Response := { status := 200, body := some [sampleObj] }

/-- The dataset a load of `goodResponse` produces. -/
def sampleMasters : List MasterRecord := injectOrphans [masterOf sampleObj]

/-- The raw JSON a load of `goodResponse` returns alongside the dataset. -/
def sampleRaw : List SrcObj := [sampleObj]

/-- The full memoized result of a load of `goodResponse`. -/
def sampleLoad : LoadResult := (sampleMasters, sampleRaw)

/-- Boolean check that no master in a list carries the orphan name. -/
def noOrphanNamed (ds : List MasterRecord) : Bool :=
  ds.all (fun m => m.name != "Orphaned Record")

/-- Count of masters carrying the orphan name. -/
def countOrphanNamed (ds : List MasterRecord) : Nat :=
  ds.countP (fun m => m.name == "Orphaned Record")

/-- Boolean check that every object of a list carries the `callRecords`
key. -/
def allHaveCallRecords (objs : List SrcObj) : Bool :=
  objs.all (fun o => o.callRecords.isSome)

/-! ## Helper lemmas -/

/-- The orphan master is the last row of the dataset it is appended to. -/
theorem getLast?_injectOrphans (ds : List MasterRecord) :
    (injectOrphans ds).getLast? = some orphanMaster := by
  rw [injectOrphans, List.getLast?_concat]

/-- When every object carries the `callRecords` key, row normalization
succeeds and is exactly an order-preserving element-wise map. -/
theorem normalizeRows_ok (objs : List SrcObj)
    (h : ∀ o ∈ objs, o.callRecords.isSome) :
    normalizeRows objs = .ok (objs.map masterOf) := by
  induction objs with
  | nil => rfl
  | cons o rest ih =>
    have ho := h o (by simp)
    cases hcr : o.callRecords with
    | none => rw [hcr] at ho; simp at ho
    | some crs =>
      have hrest := ih (fun x hx => h x (by simp [hx]))
      simp [normalizeRows, hcr, hrest, masterOf, Except.map]

/-- When some object lacks the `callRecords` key, row normalization raises
pandas' scalar-cell error. -/
theorem normalizeRows_err (objs : List SrcObj) (o : SrcObj)
    (ho : o ∈ objs) (hn : o.callRecords = none) :
    normalizeRows objs = .error .notImplementedError := by
  induction objs with
  | nil => simp at ho
  | cons x rest ih =>
    cases hcr : x.callRecords with
    | none => simp [normalizeRows, hcr]
    | some crs =>
      rcases List.mem_cons.mp ho with h | h
      · subst h; rw [hcr] at hn; simp at hn
      · simp [normalizeRows, hcr, ih h, Except.map]

/-- A successful load always returns a dataset of the shape
`injectOrphans ms0`: some normalized rows with the orphan row appended. -/
theorem loadDataRun_ok_shape (r1 r2 : Option Response)
    (ms : List MasterRecord) (raw : List SrcObj)
    (h : (loadDataRun r1 r2).fst = .ok (ms, raw)) :
    ∃ ms0, ms = injectOrphans ms0 := by
  cases r1 with
  | none => simp [loadDataRun] at h
  | some resp =>
    cases hb : resp.body with
    | none => simp [loadDataRun, hb] at h
    | some data =>
      cases r2 with
      | none => simp [loadDataRun, hb] at h
      | some resp2 =>
        by_cases h2 : 200 ≤ resp2.status ∧ resp2.status < 300
        · cases hb2 : resp2.body with
          | none => simp [loadDataRun, hb, hb2, h2] at h
          | some t2 =>
            cases hn : normalize t2 with
            | error e => simp [loadDataRun, hb, hb2, h2, hn] at h
            | ok ms0 =>
              simp [loadDataRun, hb, hb2, h2, hn] at h
              exact ⟨ms0, h.1.symm⟩
        · simp [loadDataRun, hb, h2] at h

/-- A cache hit returns the stored value and leaves the state untouched. -/
theorem getOrLoad_hit (url : String) (r1 r2 : Option Response) (s : CacheSt)
    (v : LoadResult) (h : findEntry url s.entries = some v) :
    getOrLoad url r1 r2 s = (.ok v, s) := by
  simp [getOrLoad, h]

/-- Repeated calls against a cache that already stores the URL all return
the stored value and never change the state. -/
theorem getOrLoadN_hit (url : String) (r1 r2 : Option Response) (n : Nat)
    (s : CacheSt) (v : LoadResult) (h : findEntry url s.entries = some v) :
    getOrLoadN url r1 r2 n s = (List.replicate n (.ok v), s) := by
  induction n with
  | zero => rfl
  | succ n ih => simp [getOrLoadN, getOrLoad_hit url r1 r2 s v h, ih, List.replicate]

/-! ## Claims -/

/-- Claim C1, counterexample: the orphan row that `build_grid_options`
places into `rowData` does not carry the fixed identity fields the claim
states: at input `[]` its name is `"Orphans"`, not `"Orphaned Record"`,
and its account is the integer `0`, not `"N/A"`. -/
theorem grid_orphan_identity_counterexample :
    (buildGridOptions []).rowData = [gridOrphanRow] ∧
    gridOrphanRow.name = "Orphans" ∧
    gridOrphanRow.name ≠ "Orphaned Record" ∧
    gridOrphanRow.account = .int 0 ∧
    gridOrphanRow.account ≠ .str "N/A" := by decide

/-- Claim C1, amended: every successful load ends in a dataset whose last
row is the synthetic orphan master with `name="Orphaned Record"`,
`account="N/A"`, `calls=0`, `minutes=0` and exactly the two fixed orphan
detail records; the row payload handed to the grid configuration ends in
a separately spelled orphan row that shares `calls`, `minutes` and the
two detail records but has `name="Orphans"` and integer account `0`. -/
theorem orphan_identity (r1 r2 : Option Response)
    (ms : List MasterRecord) (raw : List SrcObj)
    (h : (loadDataRun r1 r2).fst = .ok (ms, raw)) :
    ms.getLast? = some orphanMaster ∧
    orphanMaster.name = "Orphaned Record" ∧
    orphanMaster.account = .str "N/A" ∧
    orphanMaster.calls = 0 ∧ orphanMaster.minutes = 0 ∧
    orphanMaster.callRecords = [orphanDetail1, orphanDetail2] ∧
    (buildGridOptions raw).rowData.getLast? = some gridOrphanRow ∧
    gridOrphanRow.name = "Orphans" ∧
    gridOrphanRow.account = .int 0 ∧
    gridOrphanRow.calls = 0 ∧ gridOrphanRow.minutes = 0 ∧
    gridOrphanRow.callRecords = some [orphanDetail1, orphanDetail2] := by
  obtain ⟨ms0, hms⟩ := loadDataRun_ok_shape r1 r2 ms raw h
  subst hms
  refine ⟨getLast?_injectOrphans ms0, rfl, rfl, rfl, rfl, rfl, ?_, rfl, rfl, rfl, rfl, rfl⟩
  show ((buildGridOptionsCall raw).fst.rowData).getLast? = some gridOrphanRow
  rw [show (buildGridOptionsCall raw).fst.rowData = raw ++ [gridOrphanRow] from rfl,
    List.getLast?_concat]

/-- Claim C1, witness: the amended claim applied to a concrete successful
load of a one-object array. -/
theorem orphan_identity_witness :
    (loadDataRun (some goodResponse) (some goodResponse)).fst = .ok (sampleMasters, sampleRaw) ∧
    sampleMasters.getLast? = some orphanMaster :=
  ⟨by decide,
   (orphan_identity (some goodResponse) (some goodResponse) sampleMasters sampleRaw (by decide)).1⟩

/-- Claim C2: for every dataset none of whose masters already carries the
orphan name, injecting orphans yields `length + 1` masters, the orphan
master is the last element, its details are exactly the two fixed orphan
records, and exactly one orphan-named master is present — never zero,
never two. -/
theorem inject_orphans_shape (ds : List MasterRecord) (h : noOrphanNamed ds = true) :
    (injectOrphans ds).length = ds.length + 1 ∧
    (injectOrphans ds).getLast? = some orphanMaster ∧
    orphanMaster.callRecords = [orphanDetail1, orphanDetail2] ∧
    countOrphanNamed (injectOrphans ds) = 1 := by
  refine ⟨by simp [injectOrphans], getLast?_injectOrphans ds, rfl, ?_⟩
  have h0 : ds.countP (fun m => m.name == "Orphaned Record") = 0 := by
    apply List.countP_eq_zero.mpr
    intro m hm
    simpa using List.all_eq_true.mp h m hm
  simp [countOrphanNamed, injectOrphans, List.countP_append, h0, orphanMaster, List.countP_cons]

/-- Claim C2, witness: the injection invariant at a concrete one-master
dataset. -/
theorem inject_orphans_shape_witness :
    noOrphanNamed [masterOf sampleObj] = true ∧
    countOrphanNamed (injectOrphans [masterOf sampleObj]) = 1 :=
  ⟨by decide, (inject_orphans_shape [masterOf sampleObj] (by decide)).2.2.2⟩

/-- Claim C3: when the first load of a URL succeeds, `n + 1` sequential
cached calls with that URL all return the identical stored result and the
`load_data` body has run exactly once. -/
theorem cache_returns_identical (url : String) (r1 r2 : Option Response)
    (v : LoadResult) (n : Nat) (h : (loadDataRun r1 r2).fst = .ok v) :
    (getOrLoadN url r1 r2 (n + 1) initCache).fst = List.replicate (n + 1) (.ok v) ∧
    (getOrLoadN url r1 r2 (n + 1) initCache).snd.runs = 1 := by
  have h1 : getOrLoad url r1 r2 initCache =
      (.ok v, { entries := [(url, v)], runs := 1 }) := by
    simp [getOrLoad, initCache, findEntry, h]
  have h2 : findEntry url [(url, v)] = some v := by simp [findEntry]
  have h3 := getOrLoadN_hit url r1 r2 n { entries := [(url, v)], runs := 1 } v h2
  simp [getOrLoadN, h1, h3, List.replicate]

/-- Claim C3, witness: three sequential cached calls of a concrete
successful load all return the same stored result. -/
theorem cache_returns_identical_witness :
    (loadDataRun (some goodResponse) (some goodResponse)).fst = .ok sampleLoad ∧
    (getOrLoadN "u" (some goodResponse) (some goodResponse) 3 initCache).fst =
      List.replicate 3 (.ok sampleLoad) :=
  ⟨by decide,
   (cache_returns_identical "u" (some goodResponse) (some goodResponse) sampleLoad 2 (by decide)).1⟩

/-- Claim C4: a response whose body is malformed JSON makes the load fail
with the decode error, the cache stores no entry for the URL, and a later
call for the same URL against a valid response succeeds. -/
theorem cache_skips_failed_loads (url : String) (s : CacheSt) (stat : Nat)
    (r2 g1 g2 : Option Response) (v : LoadResult)
    (hmiss : findEntry url s.entries = none)
    (hgood : (loadDataRun g1 g2).fst = .ok v) :
    (getOrLoad url (some { status := stat, body := none }) r2 s).fst = .error .decodeError ∧
    findEntry url (getOrLoad url (some { status := stat, body := none }) r2 s).snd.entries = none ∧
    (getOrLoad url g1 g2 (getOrLoad url (some { status := stat, body := none }) r2 s).snd).fst = .ok v := by
  have hbad : (loadDataRun (some { status := stat, body := none }) r2).fst = .error .decodeError := rfl
  have hfirst : getOrLoad url (some { status := stat, body := none }) r2 s =
      (.error .decodeError, { entries := s.entries, runs := s.runs + 1 }) := by
    simp [getOrLoad, hmiss, hbad]
  refine ⟨by rw [hfirst], by rw [hfirst]; exact hmiss, ?_⟩
  rw [hfirst]
  simp [getOrLoad, hmiss, hgood]

/-- Claim C4, witness: a malformed 200 response fails a concrete first
load with the decode error on an empty cache. -/
theorem cache_skips_failed_loads_witness :
    findEntry "u" initCache.entries = none ∧
    (loadDataRun (some goodResponse) (some goodResponse)).fst = .ok sampleLoad ∧
    (getOrLoad "u" (some { status := 200, body := none }) none initCache).fst = .error .decodeError :=
  ⟨rfl, by decide,
   (cache_skips_failed_loads "u" initCache 200 none (some goodResponse) (some goodResponse)
      sampleLoad rfl (by decide)).1⟩

/-- Claim C5, counterexample: at a 404 response with a malformed body the
load fails with the decode error — not a fetch or HTTP-status error — so
the body of a non-2xx response is decoded; and a successful load performs
two HTTP requests, not one. -/
theorem single_attempt_counterexample :
    (loadDataRun (some { status := 404, body := none }) (some { status := 404, body := none })).fst =
      .error .decodeError ∧
    LoadError.decodeError ≠ LoadError.fetchError ∧
    LoadError.decodeError ≠ LoadError.httpError 404 ∧
    (loadDataRun (some goodResponse) (some goodResponse)).snd = 2 ∧
    (2 : Nat) ≠ 1 := by decide

/-- Claim C5, amended: network failure on the first request fails the load
immediately after a single attempt; the first response's body is decoded
regardless of its status (a malformed body fails with the decode error
even on non-2xx); a non-2xx status is only rejected at the second request
made by `pd.read_json`, which raises the HTTP-status error; every load
performs at most two HTTP requests — two whenever the first body decodes —
and no retries happen. -/
theorem fetch_behavior (r2 : Option Response) (stat s2 : Nat)
    (t : List SrcObj) (b2 : Option (List SrcObj))
    (hs2 : ¬(200 ≤ s2 ∧ s2 < 300)) :
    loadDataRun none r2 = (.error .fetchError, 1) ∧
    loadDataRun (some { status := stat, body := none }) r2 = (.error .decodeError, 1) ∧
    loadDataRun (some { status := stat, body := some t }) none = (.error .fetchError, 2) ∧
    loadDataRun (some { status := stat, body := some t }) (some { status := s2, body := b2 }) =
      (.error (.httpError s2), 2) ∧
    (loadDataRun (some { status := stat, body := some t }) r2).snd = 2 ∧
    (∀ a b, (loadDataRun a b).snd ≤ 2) := by
  refine ⟨rfl, rfl, rfl, ?_, ?_, ?_⟩
  · simp [loadDataRun, hs2]
  · cases r2 with
    | none => rfl
    | some resp2 =>
      by_cases h2 : 200 ≤ resp2.status ∧ resp2.status < 300
      · cases hb2 : resp2.body with
        | none => simp [loadDataRun, h2, hb2]
        | some t2 =>
          cases hn : normalize t2 with
          | error e => simp [loadDataRun, h2, hb2, hn]
          | ok ms => simp [loadDataRun, h2, hb2, hn]
      · simp [loadDataRun, h2]
  · intro a b
    cases a with
    | none => simp [loadDataRun]
    | some resp =>
      cases hb : resp.body with
      | none => simp [loadDataRun, hb]
      | some data =>
        cases b with
        | none => simp [loadDataRun, hb]
        | some resp2 =>
          by_cases h2 : 200 ≤ resp2.status ∧ resp2.status < 300
          · cases hb2 : resp2.body with
            | none => simp [loadDataRun, hb, hb2, h2]
            | some t2 =>
              cases hn : normalize t2 with
              | error e => simp [loadDataRun, hb, hb2, h2, hn]
              | ok ms => simp [loadDataRun, hb, hb2, h2, hn]
          · simp [loadDataRun, hb, h2]

/-- Claim C5, witness: the amended claim at status 404 for the second
response and a concrete transport failure on the first request. -/
theorem fetch_behavior_witness :
    ¬(200 ≤ 404 ∧ 404 < 300) ∧
    loadDataRun none (some goodResponse) = (.error .fetchError, 1) :=
  ⟨by decide, (fetch_behavior (some goodResponse) 200 404 [sampleObj] none (by decide)).1⟩

/-- Claim C6, counterexample: the empty array is a well-formed input JSON
array, yet normalization does not preserve its element count — it fails:
`pd.read_json` of `[]` yields a DataFrame with no columns, so the
`callRecords` column access raises and no master list is produced. -/
theorem empty_array_counterexample :
    normalize [] = .error (.keyError "callRecords") ∧
    (normalize []).isOk = false ∧
    ([] : List SrcObj).length = 0 := by decide

/-- Claim C6, amended: on any nonempty array whose objects all carry
`callRecords`, normalization succeeds and is exactly the order-preserving
element-wise map of source objects to master records, each keeping its
own detail records in source order; the empty array instead fails with
the error naming the absent `callRecords` column. -/
theorem normalize_preserves_order (objs : List SrcObj)
    (h1 : objs ≠ []) (h2 : allHaveCallRecords objs = true) :
    normalize objs = .ok (objs.map masterOf) ∧
    (objs.map masterOf).length = objs.length ∧
    ∀ i : Nat, (objs.map masterOf)[i]? = (objs[i]?).map masterOf := by
  have hall : ∀ o ∈ objs, o.callRecords.isSome := fun o ho =>
    List.all_eq_true.mp h2 o ho
  refine ⟨?_, by simp, fun i => by simp [List.getElem?_map]⟩
  rw [normalize, if_neg, normalizeRows_ok objs hall]
  cases objs with
  | nil => exact absurd rfl h1
  | cons o rest =>
    intro hcon
    have := List.all_eq_true.mp hcon o (by simp)
    have hs := hall o (by simp)
    rw [Option.isNone_iff_eq_none] at this
    rw [this] at hs
    simp at hs

/-- Claim C6, witness: normalization of a concrete one-object array is the
element-wise map. -/
theorem normalize_preserves_order_witness :
    [sampleObj] ≠ [] ∧ allHaveCallRecords [sampleObj] = true ∧
    normalize [sampleObj] = .ok ([sampleObj].map masterOf) :=
  ⟨by decide, by decide, (normalize_preserves_order [sampleObj] (by decide) (by decide)).1⟩

/-- Claim C7, counterexample: in a two-object array whose second object
lacks `callRecords` (while the first carries it), normalization fails with
pandas' scalar-cell error, which does not name the missing key. -/
theorem missing_key_counterexample :
    normalize [sampleObj, objNoCR] = .error .notImplementedError ∧
    LoadError.notImplementedError ≠ LoadError.keyError "callRecords" ∧
    sampleObj.callRecords = some [sampleDetail] ∧
    objNoCR.callRecords = none := by decide

/-- Claim C7, amended: when some object lacks `callRecords` the load
always fails and no dataset is produced, but the error names the key
`callRecords` exactly when every object lacks it (the column is absent);
otherwise the failure is the scalar-cell error on the null placeholder,
which does not name the key. -/
theorem missing_key_failure (objs : List SrcObj) (o : SrcObj)
    (ho : o ∈ objs) (hn : o.callRecords = none) :
    (normalize objs).isOk = false ∧
    (normalize objs = .error (.keyError "callRecords") ↔
      ∀ x ∈ objs, x.callRecords = none) := by
  by_cases hall : objs.all (fun x => x.callRecords.isNone)
  · have : normalize objs = .error (.keyError "callRecords") := by
      rw [normalize, if_pos hall]
    refine ⟨by rw [this]; rfl, by
      rw [this]
      simp only [true_iff]
      intro x hx
      have := List.all_eq_true.mp hall x hx
      simpa [Option.isNone_iff_eq_none] using this⟩
  · have herr : normalize objs = .error .notImplementedError := by
      rw [normalize, if_neg hall]
      exact normalizeRows_err objs o ho hn
    refine ⟨by rw [herr]; rfl, ?_⟩
    rw [herr]
    constructor
    · intro hcon; exact absurd hcon (by simp)
    · intro hforall
      exact absurd (List.all_eq_true.mpr fun x hx => by
        simp [Option.isNone_iff_eq_none, hforall x hx]) hall

/-- Claim C7, witness: the amended claim at a concrete two-object array
whose second object lacks the key. -/
theorem missing_key_failure_witness :
    objNoCR ∈ [sampleObj, objNoCR] ∧ objNoCR.callRecords = none ∧
    (normalize [sampleObj, objNoCR]).isOk = false :=
  ⟨by decide, rfl,
   (missing_key_failure [sampleObj, objNoCR] objNoCR (by decide) rfl).1⟩

/-- Claim C8: the minutes formatter renders `1234` as `"1,234m"` and the
duration formatter renders `5000` as `"5,000s"`, and these are exactly the
formatters carried by the `minutes` master column and the `duration`
detail column. -/
theorem formatter_values :
    applyFormatter .minutes 1234 = "1,234m" ∧
    applyFormatter .duration 5000 = "5,000s" ∧
    masterColumnDefs.map (fun c => c.valueFormatter) =
      [none, none, none, some .minutes] ∧
    detailColumnDefs.map (fun c => c.valueFormatter) =
      [none, none, none, some .duration, none] := by decide

/-- Claim C9: `build_grid_options` is a total pure function of the
dataset — equal inputs give structurally identical configurations across
repeated calls, and the row payload is always the input rows with the
orphan row appended. -/
theorem build_config_deterministic (d1 d2 : List SrcObj) (h : d1 = d2) :
    buildGridOptions d1 = buildGridOptions d2 ∧
    buildGridOptionsCall d1 = buildGridOptionsCall d2 ∧
    (buildGridOptions d1).rowData = d1 ++ [gridOrphanRow] := by
  subst h; exact ⟨rfl, rfl, rfl⟩

/-- Claim C9, witness: determinism at a concrete dataset. -/
theorem build_config_deterministic_witness :
    sampleRaw = sampleRaw ∧
    (buildGridOptions sampleRaw).rowData = sampleRaw ++ [gridOrphanRow] :=
  ⟨rfl, (build_config_deterministic sampleRaw sampleRaw rfl).2.2⟩

/-- Claim C10: `build_grid_options` never mutates its `data_json`
argument: after any number of repeated calls the threaded list value is
unchanged, and every produced configuration holds exactly one appended
orphan row — orphans never accumulate in the cached data. -/
theorem build_does_not_mutate (d : List SrcObj) (n : Nat) :
    (buildN n d).snd = d ∧
    ∀ c ∈ (buildN n d).fst, c.rowData = d ++ [gridOrphanRow] := by
  induction n with
  | zero => simp [buildN]
  | succ n ih =>
    refine ⟨?_, ?_⟩
    · simp [buildN, buildGridOptionsCall, pyConcat, ih.1]
    · intro c hc
      simp [buildN, buildGridOptionsCall, pyConcat] at hc
      rcases hc with hc | hc
      · subst hc; rfl
      · exact ih.2 c hc

/-- Claim C10, witness: two repeated builds over a concrete one-row list
leave the list unchanged and append exactly one orphan row each time. -/
theorem build_does_not_mutate_witness :
    buildGridOptions [sampleObj] ∈ (buildN 2 [sampleObj]).fst ∧
    (buildGridOptions [sampleObj]).rowData = [sampleObj] ++ [gridOrphanRow] :=
  ⟨by decide, (build_does_not_mutate [sampleObj] 2).2 (buildGridOptions [sampleObj]) (by decide)⟩

end App
